import Mathlib

/-!
Verification of the BioFloc Smart Management System (src/app.py) against its
natural-language specification.

Modelling conventions (shallow embedding):
  - Python floats are modelled as exact rationals (ℚ); the formulas under
    verification are plain arithmetic.
  - `int(x)` (src/app.py line 37) truncates toward zero, modelled by `pyInt`.
  - `round(x, 2)` rounds half to even, modelled by `round2`.
  - Python division raising ZeroDivisionError on a zero divisor is modelled as
    an Option-valued `pyDiv`.
  - A CSV table file is `Table α := Option (List String × List α)`: `none`
    means the backing file does not exist; `some (header, rows)` is the file
    content.  Since Lean structures fix their field names statically, the
    header that pandas derives from the record dict keys is passed to
    `save_data` as the field-name list of the record type.
  - `math.log` (a floating-point transcendental) is modelled as an
    uninterpreted function parameter `log : ℚ → ℚ`; the growth-rate claims
    are proved for every such function.
-/

namespace Biofloc

/-- Python `int()` applied to a number: truncation toward zero
(src/app.py line 37, `int(volume * initial_density)`). -/
def pyInt (q : ℚ) : ℤ := if q < 0 then ⌈q⌉ else ⌊q⌋

/-- Python `round()` to the nearest integer, ties to even. -/
def pyRound0 (q : ℚ) : ℤ :=
  if q - ⌊q⌋ < 1 / 2 then ⌊q⌋
  else if 1 / 2 < q - ⌊q⌋ then ⌊q⌋ + 1
  else if ⌊q⌋ % 2 = 0 then ⌊q⌋ else ⌊q⌋ + 1

/-- Python `round(x, 2)`: round to two decimal places. -/
def round2 (q : ℚ) : ℚ := (pyRound0 (q * 100) : ℚ) / 100

/-- Python division: a zero divisor raises ZeroDivisionError, modelled as
`none`. -/
def pyDiv (a b : ℚ) : Option ℚ := if b = 0 then none else some (a / b)

/-- One row of the measurements table `DB_FILE` (dict keys at
src/app.py lines 80-85). -/
structure MeasurementRecord where
  Date : String
  Pond : String
  Temp : ℚ
  DO : ℚ
  pH : ℚ
  Alk : ℚ
  TAN : ℚ
  NO2 : ℚ
  NO3 : ℚ
  Total_N : ℚ
  Floc : ℚ
  Weight : ℚ
  Biomass_kg : ℚ
  Feed_kg : ℚ
  Molasses_kg : ℚ
deriving DecidableEq

/-- One row of the mortality table `MORT_FILE` (dict keys at
src/app.py line 143). -/
structure MortalityRecord where
  Date : String
  Pond_ID : String
  Dead_Count : ℤ
deriving DecidableEq

/-- Expense categories (src/app.py line 115). -/
inductive ExpCategory where
  | Feed | Power | Labor | Molasses | Seed | Misc
deriving DecidableEq

/-- One row of the finance table `EXP_FILE` (dict keys at src/app.py
line 118). -/
structure ExpenseRecord where
  Date : String
  Category : ExpCategory
  Cost : ℚ
deriving DecidableEq

/-- A CSV table file: `none` when the backing file does not exist, otherwise
the header row together with the data rows in on-disk order. -/
abbrev Table (α : Type) : Type := Option (List String × List α)

/-- Column headers of the measurements table, in dict-key order
(src/app.py lines 80-85). -/
def measColumns : List String :=
  ["Date", "Pond", "Temp", "DO", "pH", "Alk", "TAN", "NO2", "NO3",
   "Total_N", "Floc", "Weight", "Biomass_kg", "Feed_kg", "Molasses_kg"]

/-- Column headers of the mortality table (src/app.py line 143). -/
def mortColumns : List String := ["Date", "Pond_ID", "Dead_Count"]

/-- Column headers of the finance table (src/app.py line 118). -/
def expColumns : List String := ["Date", "Category", "Cost"]

/-- `save_data(data, filename)` (src/app.py lines 16-21): if the file does
not exist, write a fresh one-row table whose header is derived from the
record's field names; otherwise read the whole file, append the record as the
last row and rewrite the whole file. -/
def save_data {α : Type} (fieldNames : List String) (data : α) (t : Table α) :
    Table α :=
  match t with
  | none => some (fieldNames, [data])
  | some (h, rows) => some (h, rows ++ [data])

/-- Reading a table as its callers do (src/app.py lines 34-36, 90-91,
123-124, 133): a missing file is treated as no data, an existing file yields
its rows in on-disk order. -/
def read_all {α : Type} (t : Table α) : List α :=
  match t with
  | none => []
  | some (_, rows) => rows

/-- `total_dead` (src/app.py lines 33-36): 0 when the mortality file is
absent, otherwise the sum of `Dead_Count` over the rows whose `Pond_ID`
equals the sidebar tank id. -/
def total_dead (pond_id : String) (t : Table MortalityRecord) : ℤ :=
  match t with
  | none => 0
  | some (_, rows) =>
      ((rows.filter (fun r => r.Pond_ID = pond_id)).map
        (fun r => r.Dead_Count)).sum

/-- `initial_count` (src/app.py line 37): `int(volume * initial_density)`. -/
def initial_count (volume initial_density : ℚ) : ℤ :=
  pyInt (volume * initial_density)

/-- `current_count` (src/app.py line 38): stocked count minus cumulative
mortality for the tank. -/
def current_count (volume initial_density : ℚ) (pond_id : String)
    (mort : Table MortalityRecord) : ℤ :=
  initial_count volume initial_density - total_dead pond_id mort

/-- Modelled from the spec: the §3 invariant
`live_population = floor(water_volume_m3 * stocking_density) - sum(dead_count
for all MortalityRecord where tank_id matches)`, for comparison with the
code's `current_count`. -/
def spec_live_population (volume density : ℚ) (pond_id : String)
    (mort : Table MortalityRecord) : ℤ :=
  ⌊volume * density⌋ - total_dead pond_id mort

/-- The "Current Density" sidebar metric (src/app.py line 42):
`round(current_count / volume, 2)`, with the division fallible. -/
def density_metric (current_cnt : ℤ) (volume : ℚ) : Option ℚ :=
  (pyDiv (current_cnt : ℚ) volume).map round2

/-- Biomass calculation at submission (src/app.py line 73):
`(current_count * w_g) / 1000`. -/
def biomass_calc (current_cnt : ℤ) (w_g : ℚ) : ℚ :=
  ((current_cnt : ℚ) * w_g) / 1000

/-- Feed calculation at submission (src/app.py line 74):
`biomass * (f_rate / 100)`. -/
def feed_calc (biomass f_rate : ℚ) : ℚ := biomass * (f_rate / 100)

/-- Molasses calculation at submission (src/app.py line 75):
`(feed * (prot/100) * 0.16 * 15) / 0.4`. -/
def molasses_calc (feed prot : ℚ) : ℚ :=
  (feed * (prot / 100) * 0.16 * 15) / 0.4

/-- Total nitrogen calculation at submission (src/app.py line 78):
`tan + nitrite + nitrate`. -/
def total_n_calc (tan nitrite nitrate : ℚ) : ℚ := tan + nitrite + nitrate

/-- The record built and saved by the daily-entry form submission
(src/app.py lines 71-85): derived metrics computed from the inputs, with
`Biomass_kg`, `Feed_kg`, `Molasses_kg` rounded to 2 decimals and `Total_N`
stored unrounded. -/
def entry_submit (current_cnt : ℤ) (dateStr pond : String)
    (temp dO tan nitrite ph alk nitrate f_vol w_g f_rate prot : ℚ) :
    MeasurementRecord :=
  let biomass := biomass_calc current_cnt w_g
  let feed := feed_calc biomass f_rate
  let molasses := molasses_calc feed prot
  let total_n := total_n_calc tan nitrite nitrate
  { Date := dateStr, Pond := pond, Temp := temp, DO := dO, pH := ph,
    Alk := alk, TAN := tan, NO2 := nitrite, NO3 := nitrate,
    Total_N := total_n, Floc := f_vol, Weight := w_g,
    Biomass_kg := round2 biomass, Feed_kg := round2 feed,
    Molasses_kg := round2 molasses }

/-- The row filter of the deletion workflow (src/app.py line 127):
`edit_df[~edit_df['Date'].isin(dates_to_del)]`. -/
def delete_by_date (dates : List String)
    (rows : List MeasurementRecord) : List MeasurementRecord :=
  rows.filter (fun r => ¬ r.Date ∈ dates)

/-- The Confirm Delete handler of tab 4 (src/app.py lines 123-128): nothing
happens when the file is absent; otherwise the file is rewritten with the
rows whose date is not among the selected dates. -/
def confirm_delete (dates : List String) (t : Table MeasurementRecord) :
    Table MeasurementRecord :=
  match t with
  | none => none
  | some (h, rows) => some (h, delete_by_date dates rows)

/-- The SGR metric of the analytics tab (src/app.py lines 105-106): defined
only when more than one row exists; then
`(log(weights[-1]) - log(weights[-2])) * 100` over the date-ordered weight
series, with `math.log` an uninterpreted parameter. -/
def sgr_metric (log : ℚ → ℚ) (ws : List ℚ) : Option ℚ :=
  if h : 1 < ws.length then
    some ((log (ws.get ⟨ws.length - 1, by omega⟩)
      - log (ws.get ⟨ws.length - 2, by omega⟩)) * 100)
  else none

/-- The displayed SGR (src/app.py line 107): `round(sgr, 2)`. -/
def sgr_display (log : ℚ → ℚ) (ws : List ℚ) : Option ℚ :=
  (sgr_metric log ws).map round2

/-- A concrete measurement row used to instantiate universally quantified
statements. -/
def sampleRec (d p : String) : MeasurementRecord :=
  { Date := d, Pond := p, Temp := 28, DO := 5.5, pH := 7.5, Alk := 120,
    TAN := 0.1, NO2 := 0.01, NO3 := 10, Total_N := 10.11, Floc := 25,
    Weight := 50, Biomass_kg := 0, Feed_kg := 0, Molasses_kg := 0 }

/-- A concrete mortality row used to instantiate universally quantified
statements. -/
def sampleMort (p : String) (n : ℤ) : MortalityRecord :=
  { Date := "2024-01-03", Pond_ID := p, Dead_Count := n }

/-- Appending records one at a time onto an existing table file accumulates
them behind the existing rows, in order. -/
theorem read_all_foldl {α : Type} (fn h : List String) (rows ds : List α) :
    read_all (ds.foldl (fun t d => save_data fn d t) (some (h, rows))) = rows ++ ds := by
  induction ds generalizing rows with
  | nil => simp [read_all]
  | cons d ds ih =>
      rw [List.foldl_cons]
      rw [show save_data fn d (some (h, rows)) = some (h, rows ++ [d]) from rfl]
      rw [ih (rows ++ [d])]
      simp

/-- The SGR metric over a history ending in the two points `a`, `b` uses
exactly those two points. -/
theorem sgr_metric_append (log : ℚ → ℚ) (ws : List ℚ) (a b : ℚ) :
    sgr_metric log (ws ++ [a, b]) = some ((log b - log a) * 100) := by
  rw [sgr_metric, dif_pos (by simp)]
  simp only [List.get_eq_getElem]
  rw [getElem_congr (show (ws ++ [a, b]).length - 1 = ws.length + 1 by simp)]
  rw [getElem_congr (show (ws ++ [a, b]).length - 2 = ws.length by simp)]
  rw [List.getElem_append_right (by omega), List.getElem_append_right (by omega)]
  simp

/-- The deletion filter commutes with any row transformation that preserves
the `Date` field. -/
theorem delete_by_date_map (dates : List String)
    (f : MeasurementRecord → MeasurementRecord)
    (hf : ∀ r, (f r).Date = r.Date) (rows : List MeasurementRecord) :
    delete_by_date dates (rows.map f) = (delete_by_date dates rows).map f := by
  induction rows with
  | nil => rfl
  | cons r rs ih =>
      by_cases hd : r.Date ∈ dates <;>
        simp [delete_by_date, List.filter_cons, hf, hd] <;>
        simpa [delete_by_date] using ih

/-- C1 counterexample: the claim states that the live population equals
`floor(volume * density)` minus cumulative tank mortality, but the code
applies Python `int()`, which truncates toward zero.  At the in-range input
volume = -3/2 m³, density = 1 fish/m³ (inputs are explicitly unbounded,
`min_value=None`), `int(-1.5) = -1` while `floor(-1.5) = -2`. -/
theorem current_count_floor_counterexample :
    current_count (-(3 : ℚ)/2) 1 "Exp-01" none
      ≠ spec_live_population (-(3 : ℚ)/2) 1 "Exp-01" none := by
  rw [current_count, spec_live_population, initial_count, total_dead, pyInt]
  rw [if_pos (by norm_num)]
  rw [show ((-(3 : ℚ)/2) * 1) = -(3/2) by ring, Int.ceil_neg]
  norm_num

/-- C1 (amended): for every water volume, stocking density, tank id and
mortality table, the live population equals the truncation toward zero of
`volume * density` minus the sum of `Dead_Count` over the mortality rows of
that tank, with no lower bound enforced; when `volume * density` is
nonnegative the truncation coincides with the claimed floor. -/
theorem current_count_trunc_mortality (volume density : ℚ) (pid : String)
    (t : Table MortalityRecord) :
    current_count volume density pid t
        = pyInt (volume * density)
          - (((read_all t).filter (fun m => m.Pond_ID = pid)).map
              (fun m => m.Dead_Count)).sum
    ∧ (0 ≤ volume * density →
        current_count volume density pid t = ⌊volume * density⌋ - total_dead pid t) := by
  constructor
  · cases t <;> rfl
  · intro h
    rw [current_count, initial_count, pyInt, if_neg (not_lt.mpr h)]

/-- C1 witness: with volume 15 m³, density 100 fish/m³ and no mortality
file, the live population is the claimed floor-based value (= 1500). -/
theorem current_count_trunc_mortality_witness :
    current_count 15 100 "Exp-01" none = ⌊(15 : ℚ) * 100⌋ - total_dead "Exp-01" none :=
  (current_count_trunc_mortality 15 100 "Exp-01" none).2 (by norm_num)

/-- C2: replaying any sequence of `save_data` appends against an initially
absent table and then reading it back returns exactly the appended records
in submission order; the first append creates the table holding exactly that
record as its sole row under the record's field-name header, and every later
append rewrites the table with the record as the new last row. -/
theorem save_data_append_order {α : Type} (fn : List String) (ds : List α)
    (d : α) (hdr : List String) (rows : List α) :
    read_all (ds.foldl (fun t x => save_data fn x t) none) = ds
    ∧ save_data fn d none = some (fn, [d])
    ∧ save_data fn d (some (hdr, rows)) = some (hdr, rows ++ [d]) := by
  refine ⟨?_, rfl, rfl⟩
  cases ds with
  | nil => rfl
  | cons x xs =>
      rw [List.foldl_cons]
      rw [show save_data fn x (none : Table α) = some (fn, [x]) from rfl]
      rw [read_all_foldl]
      simp

/-- C3: after the Confirm Delete handler runs with a selected date set, the
table read back contains no row whose date is in the set, every row with a
date outside the set is kept in its prior relative order, and the filter
depends on the `Date` field only (so rows of every tank are removed alike,
as witnessed by commutation with every date-preserving row transformation). -/
theorem delete_by_date_spec (dates : List String) (hdr : List String)
    (rows : List MeasurementRecord) (f : MeasurementRecord → MeasurementRecord) :
    (∀ r ∈ read_all (confirm_delete dates (some (hdr, rows))), ¬ r.Date ∈ dates)
    ∧ (read_all (confirm_delete dates (some (hdr, rows)))).Sublist rows
    ∧ (∀ r ∈ rows, ¬ r.Date ∈ dates →
        r ∈ read_all (confirm_delete dates (some (hdr, rows))))
    ∧ ((∀ r, (f r).Date = r.Date) →
        delete_by_date dates (rows.map f) = (delete_by_date dates rows).map f) := by
  refine ⟨?_, ?_, ?_, fun hf => delete_by_date_map dates f hf rows⟩
  · intro r hr
    simp [confirm_delete, read_all, delete_by_date, List.mem_filter] at hr
    exact hr.2
  · simp only [confirm_delete, read_all, delete_by_date]
    exact List.filter_sublist rows
  · intro r hr hd
    simp [confirm_delete, read_all, delete_by_date, List.mem_filter]
    exact ⟨hr, hd⟩

/-- C3 witness: deleting date 2024-01-01 from a two-row table keeps the row
of 2024-01-02, which belongs to a different tank than the deleted row. -/
theorem delete_by_date_spec_witness :
    sampleRec "2024-01-02" "T2" ∈ read_all (confirm_delete ["2024-01-01"]
      (some (measColumns,
        [sampleRec "2024-01-01" "Exp-01", sampleRec "2024-01-02" "T2"]))) :=
  (delete_by_date_spec ["2024-01-01"] measColumns
      [sampleRec "2024-01-01" "Exp-01", sampleRec "2024-01-02" "T2"] id).2.2.1
    (sampleRec "2024-01-02" "T2") (by simp) (by simp [sampleRec])

/-- C4: `total_dead` equals the sum of `Dead_Count` over exactly the
mortality rows whose `Pond_ID` equals the queried tank id, is 0 when the
table file is absent, and is unchanged by appending a row of a different
tank. -/
theorem total_dead_spec (pid : String) (t : Table MortalityRecord)
    (hdr : List String) (rows : List MortalityRecord) (r : MortalityRecord) :
    total_dead pid t
        = (((read_all t).filter (fun m => m.Pond_ID = pid)).map
            (fun m => m.Dead_Count)).sum
    ∧ total_dead pid none = 0
    ∧ (r.Pond_ID ≠ pid →
        total_dead pid (some (hdr, rows ++ [r])) = total_dead pid (some (hdr, rows))) := by
  refine ⟨?_, rfl, ?_⟩
  · cases t <;> rfl
  · intro hne
    simp [total_dead, List.filter_append, List.filter_cons, hne]

/-- C4 witness: mortality rows of 10 and 5 dead on tank Exp-01 sum to 15,
and an extra row of 7 dead on tank Exp-02 does not change the Exp-01 sum. -/
theorem total_dead_spec_witness :
    total_dead "Exp-01" (some (mortColumns,
        [sampleMort "Exp-01" 10, sampleMort "Exp-01" 5] ++ [sampleMort "Exp-02" 7]))
      = total_dead "Exp-01" (some (mortColumns,
        [sampleMort "Exp-01" 10, sampleMort "Exp-01" 5])) :=
  (total_dead_spec "Exp-01" none mortColumns
      [sampleMort "Exp-01" 10, sampleMort "Exp-01" 5] (sampleMort "Exp-02" 7)).2.2
    (by simp [sampleMort])

/-- C5: the specific growth rate over a date-ordered weight history is
undefined (no output) when fewer than 2 points exist, and otherwise is
`(log(last) - log(second_to_last)) * 100` rounded to 2 decimals, depending
only on the two most recent weight observations — proved for every
interpretation of `math.log`. -/
theorem sgr_last_two (log : ℚ → ℚ) (ws : List ℚ) (a b : ℚ) :
    (ws.length < 2 → sgr_display log ws = none)
    ∧ sgr_display log (ws ++ [a, b]) = some (round2 ((log b - log a) * 100)) := by
  constructor
  · intro h
    rw [sgr_display, sgr_metric, dif_neg (by omega)]
    rfl
  · rw [sgr_display, sgr_metric_append]
    rfl

/-- C5 witness: a one-point history produces no SGR, and a history ending in
weights 2 then 3 produces the rounded two-point rate. -/
theorem sgr_last_two_witness :
    sgr_display id ([5] : List ℚ) = none
    ∧ sgr_display id (([5] : List ℚ) ++ [2, 3])
        = some (round2 ((id (3 : ℚ) - id 2) * 100)) :=
  ⟨(sgr_last_two id [5] 2 3).1 (by simp), (sgr_last_two id [5] 2 3).2⟩

/-- C6: the production metrics computed on daily-entry submission satisfy
`biomass = live_population * avg_weight_g / 1000`,
`feed = biomass * feed_rate_pct / 100` and
`molasses = feed * (protein_pct/100) * 0.16 * 15 / 0.4` with the constants
exactly as given, matching the spec's worked example 1485 fish at 50 g with
2% feed rate and 30% protein. -/
theorem entry_metrics_formulas (cc : ℤ) (w f_rate prot b f : ℚ) :
    biomass_calc cc w = (cc : ℚ) * w / 1000
    ∧ feed_calc b f_rate = b * f_rate / 100
    ∧ molasses_calc f prot = f * (prot / 100) * 0.16 * 15 / 0.4
    ∧ biomass_calc 1485 50 = 74.25
    ∧ feed_calc (biomass_calc 1485 50) 2 = 1.485
    ∧ molasses_calc 1.485 30 = 2.673 := by
  refine ⟨rfl, by rw [feed_calc]; ring, rfl, ?_, ?_, ?_⟩ <;>
    norm_num [biomass_calc, feed_calc, molasses_calc]

/-- C7: the total nitrogen stored in the measurement record is exactly
`TAN + nitrite + nitrate` with no rounding, as in the spec's example
`0.1 + 0.01 + 10.0 = 10.11`. -/
theorem total_n_exact (cc : ℤ) (dateStr pond : String)
    (temp dO tan nitrite ph alk nitrate f_vol w_g f_rate prot : ℚ) :
    (entry_submit cc dateStr pond temp dO tan nitrite ph alk nitrate
        f_vol w_g f_rate prot).Total_N = tan + nitrite + nitrate
    ∧ total_n_calc 0.1 0.01 10.0 = 10.11 := by
  refine ⟨rfl, ?_⟩
  norm_num [total_n_calc]

/-- C8: reading any of the three tables when its backing file does not exist
yields the empty sequence rather than an error, the mortality aggregation
over a missing file is 0, and the deletion handler leaves a missing file
untouched — every caller treats a missing file as no data. -/
theorem read_all_missing_file :
    read_all (α := MeasurementRecord) none = []
    ∧ read_all (α := MortalityRecord) none = []
    ∧ read_all (α := ExpenseRecord) none = []
    ∧ (∀ pid : String, total_dead pid none = 0)
    ∧ (∀ dates : List String, confirm_delete dates none = none) :=
  ⟨rfl, rfl, rfl, fun _ => rfl, fun _ => rfl⟩

/-- C9: the displayed density is `live_population / volume` rounded to 2
decimal places whenever `volume ≠ 0`, and the computation fails with a
division error (modelled as `none`) when `volume = 0`, never defaulting
silently. -/
theorem density_metric_spec (cc : ℤ) (volume : ℚ) :
    (volume = 0 → density_metric cc volume = none)
    ∧ (volume ≠ 0 → density_metric cc volume = some (round2 ((cc : ℚ) / volume))) := by
  constructor <;> intro h <;> simp [density_metric, pyDiv, h]

/-- C9 witness: 1500 fish in 15 m³ display as the rounded quotient, and a
zero volume produces the division failure. -/
theorem density_metric_spec_witness :
    density_metric 1500 0 = none
    ∧ density_metric 1500 15 = some (round2 ((1500 : ℚ) / 15)) :=
  ⟨(density_metric_spec 1500 0).1 rfl, (density_metric_spec 1500 15).2 (by norm_num)⟩

/-- C10: the record persisted on daily-entry submission is the last row of
the rewritten table, its `Biomass_kg`, `Feed_kg` and `Molasses_kg` fields
are the 2-decimal roundings of the derived metrics while `Total_N` is stored
unrounded, and the rounding is not the identity (at the spec's example the
stored molasses value differs from the exact formula). -/
theorem entry_persist_rounded (cc : ℤ) (dateStr pond : String)
    (temp dO tan nitrite ph alk nitrate f_vol w_g f_rate prot : ℚ)
    (t : Table MeasurementRecord) :
    let row := entry_submit cc dateStr pond temp dO tan nitrite ph alk nitrate
      f_vol w_g f_rate prot
    (read_all (save_data measColumns row t)).getLast? = some row
    ∧ row.Biomass_kg = round2 (biomass_calc cc w_g)
    ∧ row.Feed_kg = round2 (feed_calc (biomass_calc cc w_g) f_rate)
    ∧ row.Molasses_kg = round2 (molasses_calc (feed_calc (biomass_calc cc w_g) f_rate) prot)
    ∧ row.Total_N = total_n_calc tan nitrite nitrate
    ∧ round2 (molasses_calc 1.485 30) ≠ molasses_calc 1.485 30 := by
  refine ⟨?_, rfl, rfl, rfl, rfl, ?_⟩
  · cases t with
    | none => rfl
    | some p => simp [save_data, read_all]
  · norm_num [round2, molasses_calc, pyRound0]

end Biofloc
